import Mathlib

/-!
Verification of the GalSim silicon sensor module (galsim/sensor.py).

The file embeds the parts of sensor.py that the specification talks about:
the Poisson-simulator configuration-file parser (SiliconSensor.ReadConfigFile),
the diffusion-step calculation (SiliconSensor.CalcDiffStep), the vertex-file
size validation and engine construction inside SiliconSensor.__init__, and the
accumulate delegation.  Pure functions of the source become Lean functions;
the Python exception flow becomes Option/Except; Python floats are modelled
exactly (parsed numeric literals as rational values, with explicit inf/nan
constructors), so no IEEE rounding is modelled.
-/

set_option autoImplicit false

namespace GalSim

/-! ### Tokenization: line.strip().split()

Python's str.split() with no argument splits on runs of whitespace and never
produces empty tokens; the preceding strip() is therefore a no-op on the token
list.  We model it with a direct character-level splitter. -/

/-- Accumulator-based whitespace splitter: the model of Python
line.strip().split(). -/
def splitWsAux : List Char → List Char → List String
  | [], cur => if cur.isEmpty then [] else [String.mk cur]
  | c :: cs, cur =>
    if c.isWhitespace then
      if cur.isEmpty then splitWsAux cs []
      else String.mk cur :: splitWsAux cs []
    else splitWsAux cs (cur ++ [c])

/-- Tokenize one configuration line exactly as line.strip().split() does. -/
def tokenize (line : String) : List String :=
  splitWsAux line.toList []

/-- Test of list(token)[0] == the hash character, as used on lines 153 and 159
of sensor.py.  Tokens produced by split() are never empty, so indexing the
first character cannot fail there. -/
def startsHash (t : String) : Bool :=
  t.toList.head? == some '#'

/-! ### Python numeric coercion: int(s) and float(s)

ReadConfigFile coerces every value token with int() first, then float(), then
keeps the string (lines 169-186).  int(s) accepts an optional sign followed by
a nonempty run of decimal digits; float(s) additionally accepts a decimal
point, an exponent part, and the case-insensitive words inf/infinity/nan. -/

/-- Numeric value of a run of decimal digits. -/
def digitsToNat (cs : List Char) : Nat :=
  cs.foldl (fun a c => a * 10 + (c.toNat - 48)) 0

/-- A nonempty run of decimal digits. -/
def isDigits (cs : List Char) : Bool :=
  !cs.isEmpty && cs.all Char.isDigit

/-- Optional sign followed by a nonempty digit run: the strings accepted by
Python int(s) (and by the exponent part of float(s)). -/
def pyIntOfChars : List Char → Option Int
  | '+' :: cs => if isDigits cs then some (digitsToNat cs) else none
  | '-' :: cs => if isDigits cs then some (-(digitsToNat cs : Int)) else none
  | cs => if isDigits cs then some (digitsToNat cs) else none

/-- The model of Python int(s) on a whitespace-free token. -/
def pyInt (s : String) : Option Int :=
  pyIntOfChars s.toList

/-- The value of a parsed Python float literal: the exact rational value
num/den of a finite decimal literal (kept unreduced), or an infinity or nan
word.  No IEEE rounding is modelled. -/
inductive PyFloat where
  | finite (num : Int) (den : Nat)
  | inf (neg : Bool)
  | nan
deriving DecidableEq

/-- Exponent part of a float literal: empty (exponent 0) or an e/E followed by
an optionally-signed nonempty digit run. -/
def parseExpPart : List Char → Option Int
  | [] => some 0
  | 'e' :: rest => pyIntOfChars rest
  | 'E' :: rest => pyIntOfChars rest
  | _ => none

/-- Scale the unsigned fraction num/den by ten to the exponent. -/
def scaleByExp (num den : Nat) : Int → Nat × Nat
  | Int.ofNat k => (num * 10 ^ k, den)
  | Int.negSucc k => (num, den * 10 ^ (k + 1))

/-- Unsigned finite float literal: digits, an optional point with further
digits (at least one digit overall before the exponent), and an optional
exponent part.  Returns the exact rational value as an unreduced
numerator/denominator pair. -/
def parseUnsignedFloat (cs : List Char) : Option (Nat × Nat) :=
  let ip := cs.takeWhile Char.isDigit
  let rest := cs.dropWhile Char.isDigit
  match rest with
  | '.' :: rest2 =>
    let fp := rest2.takeWhile Char.isDigit
    let rest3 := rest2.dropWhile Char.isDigit
    if ip.isEmpty && fp.isEmpty then none
    else
      match parseExpPart rest3 with
      | some e => some (scaleByExp (digitsToNat ip * 10 ^ fp.length + digitsToNat fp) (10 ^ fp.length) e)
      | none => none
  | _ =>
    if ip.isEmpty then none
    else
      match parseExpPart rest with
      | some e => some (scaleByExp (digitsToNat ip) 1 e)
      | none => none

/-- Body of float(s) after the optional sign has been removed. -/
def pyFloatCore (cs : List Char) (neg : Bool) : Option PyFloat :=
  let low := cs.map Char.toLower
  if low = [ 'i', 'n', 'f' ] || low = [ 'i', 'n', 'f', 'i', 'n', 'i', 't', 'y' ] then
    some (PyFloat.inf neg)
  else if low = [ 'n', 'a', 'n' ] then
    some PyFloat.nan
  else
    match parseUnsignedFloat cs with
    | some p => some (PyFloat.finite (if neg then -(p.1 : Int) else (p.1 : Int)) p.2)
    | none => none

/-- The model of Python float(s) on a whitespace-free token. -/
def pyFloat (s : String) : Option PyFloat :=
  match s.toList with
  | '+' :: rest => pyFloatCore rest false
  | '-' :: rest => pyFloatCore rest true
  | rest => pyFloatCore rest false

/-- A stored configuration value: scalar int, float or string, or an ordered
sequence of coerced scalars (lines 169-186 of sensor.py). -/
inductive ConfigValue where
  | int (n : Int)
  | float (f : PyFloat)
  | str (s : String)
  | seq (vs : List ConfigValue)

/-- Coercion of one value token: try int(), then float(), then keep the raw
string (the nested try/except at lines 169-177 and 181-185). -/
def coerce (t : String) : ConfigValue :=
  match pyInt t with
  | some n => ConfigValue.int n
  | none =>
    match pyFloat t with
    | some f => ConfigValue.float f
    | none => ConfigValue.str t

/-! ### The token walk (lines 158-164)

Python iterates over enumerate(ThisLine) while mutating ThisLine.  The list
iterator keeps a bare index: after ThisLine.remove(item) the element that
slides into the removed slot is never examined, and after del ThisLine[i:]
the iteration stops because the index has passed the new end.  walkAux models
the live loop state (remaining permitted steps, current index, current list);
each iteration advances the index by one, so ts.length steps always suffice,
and when the fuel runs out the index is already past the end of the (never
grown) list, which is exactly the loop's normal exit returning the list. -/

/-- One run of the mutating for-loop of lines 158-164, starting at index i. -/
def walkAux : Nat → Nat → List String → List String
  | 0, _, ts => ts
  | fuel + 1, i, ts =>
    match ts[i]? with
    | none => ts
    | some t =>
      if startsHash t then ts.take i
      else if t = ("=") then walkAux fuel (i + 1) (ts.erase ("="))
      else walkAux fuel (i + 1) ts

/-- The token walk applied to the value tokens of a line. -/
def walk (ts : List String) : List String :=
  walkAux ts.length 0 ts

/-! ### Per-line processing and the whole parser -/

/-- Processing of a single config line (lines 148-186): tokenize, skip short
lines and comment lines, walk the value tokens, coerce and store.  Returns
the table entry the line contributes, if any. -/
def processLine (line : String) : Option (String × ConfigValue) :=
  match tokenize line with
  | [] => none
  | name :: rest =>
    if (name :: rest).length < 3 then none
    else if startsHash name || name == ("\n") then none
    else
      match walk rest with
      | [] => none
      | [v] => some (name, coerce v)
      | v :: w :: vs => some (name, ConfigValue.seq ((v :: w :: vs).map coerce))

/-- Dictionary update ConfigData[ParamName] = value: overwrite in place if the
key exists, otherwise add the entry. -/
def upsert (k : String) (v : ConfigValue) : List (String × ConfigValue) → List (String × ConfigValue)
  | [] => [(k, v)]
  | (k', v') :: t => if k' = k then (k', v) :: t else (k', v') :: upsert k v t

/-- Fold one line into the accumulated table. -/
def storeLine (t : List (String × ConfigValue)) (line : String) : List (String × ConfigValue) :=
  match processLine line with
  | some (k, v) => upsert k v t
  | none => t

/-- SiliconSensor.ReadConfigFile (lines 134-193).  The file argument is the
outcome of the open/readlines attempt: none models the IOError path (lines
143-145), some lines the successfully read file.  Every operation performed
on a line is total in this embedding (the only exceptions the source can
raise per line are the ValueErrors of int()/float(), handled inside coerce),
so the success flag is false exactly when the file could not be opened. -/
def ReadConfigFile (file : Option (List String)) : Bool × List (String × ConfigValue) :=
  match file with
  | none => (false, [])
  | some lines => (true, lines.foldl storeLine [])

/-! ### SiliconSensor.CalcDiffStep (lines 195-221)

A pure function of the detector parameters.  CollectingPhases arrives from
the parsed configuration as an integer; all other inputs are real-valued.
np.sqrt becomes Real.sqrt.  The local collection-area variables (collXmin,
collXwidth, collYmin, collYwidth) are computed exactly as in the source but
never used by the returned expression; the early return 0.0 for a number of
collecting phases other than 1 or 2 (after printing a warning) is modelled by
the none branch of the selected gate data. -/

/-- The diffusion step size of SiliconSensor.CalcDiffStep. -/
noncomputable def CalcDiffStep (CollectingPhases : Int)
    (PixelSize ChannelStopWidth Vbb Vparallel_lo Vparallel_hi CCDTemperature DiffMult : ℝ) : ℝ :=
  let _collXmin : ℝ := ChannelStopWidth / (2.0 * PixelSize)
  let _collXwidth : ℝ := (PixelSize - ChannelStopWidth) / PixelSize
  match (if CollectingPhases = 1 then
           some (1.0 / 3.0, 1.0 / 3.0, (2.0 * Vparallel_lo + Vparallel_hi) / 3.0 - Vbb)
         else if CollectingPhases = 2 then
           some (1.0 / 6.0, 2.0 / 3.0, (Vparallel_lo + 2.0 * Vparallel_hi) / 3.0 - Vbb)
         else none : Option (ℝ × ℝ × ℝ)) with
  | none => 0.0
  | some (_collYmin, _collYwidth, Vdiff) =>
    100.0 * Real.sqrt (2.0 * 0.026 * CCDTemperature / 298.0 / Vdiff) * DiffMult

/-- The rng argument of the constructor: absent, a BaseDeviate (identified by
its seed), or a value of some other type. -/
inductive RngArg where
  | noRng
  | base (seed : Nat)
  | invalid
deriving DecidableEq

/-- The resolved uniform generator held by the sensor. -/
inductive Rng where
  | fresh
  | copyOf (seed : Nat)
deriving DecidableEq

/-- Lines 86-91: a missing rng gets a fresh UniformDeviate, a BaseDeviate is
copied, anything else raises TypeError. -/
def resolveRng : RngArg → Except String Rng
  | RngArg.noRng => Except.ok Rng.fresh
  | RngArg.base s => Except.ok (Rng.copyOf s)
  | RngArg.invalid => Except.error ("TypeError: rng is not a BaseDeviate")

/-- The configuration fields the constructor reads (lines 95-99). -/
structure SensorParams where
  CollectingPhases : Int
  PixelSize : ℝ
  ChannelStopWidth : ℝ
  Vbb : ℝ
  Vparallel_lo : ℝ
  Vparallel_hi : ℝ
  CCDTemperature : ℝ
  NumVertices : Int
  PixelBoundaryNx : Int
  PixelBoundaryNy : Int

/-- ConfigData[key]: a missing key raises KeyError. -/
def lookupCfg (cfg : List (String × ConfigValue)) (k : String) : Except String ConfigValue :=
  match cfg.find? (fun p => p.1 = k) with
  | some p => Except.ok p.2
  | none => Except.error ("KeyError: " ++ k)

/-- A config field used as the integer CollectingPhases or as a grid
dimension must have been stored as an integer scalar. -/
def cfgInt (cfg : List (String × ConfigValue)) (k : String) : Except String Int :=
  match lookupCfg cfg k with
  | Except.ok (ConfigValue.int n) => Except.ok n
  | Except.ok _ => Except.error ("TypeError: " ++ k)
  | Except.error e => Except.error e

/-- A config field used in real arithmetic: an integer or finite float scalar
is usable, anything else raises when used. -/
noncomputable def cfgReal (cfg : List (String × ConfigValue)) (k : String) : Except String ℝ :=
  match lookupCfg cfg k with
  | Except.ok (ConfigValue.int n) => Except.ok (n : ℝ)
  | Except.ok (ConfigValue.float (PyFloat.finite num den)) => Except.ok ((num : ℝ) / (den : ℝ))
  | Except.ok _ => Except.error ("TypeError: " ++ k)
  | Except.error e => Except.error e

/-- Reading of the config fields in the order the source evaluates them
(the arguments of the CalcDiffStep call on line 95, then lines 96-99). -/
noncomputable def readParams (cfg : List (String × ConfigValue)) : Except String SensorParams := do
  let cp ← cfgInt cfg ("CollectingPhases")
  let ps ← cfgReal cfg ("PixelSize")
  let csw ← cfgReal cfg ("ChannelStopWidth")
  let vbb ← cfgReal cfg ("Vbb")
  let vlo ← cfgReal cfg ("Vparallel_lo")
  let vhi ← cfgReal cfg ("Vparallel_hi")
  let temp ← cfgReal cfg ("CCDTemperature")
  let nv ← cfgInt cfg ("NumVertices")
  let nx ← cfgInt cfg ("PixelBoundaryNx")
  let ny ← cfgInt cfg ("PixelBoundaryNy")
  let _ps2 ← cfgReal cfg ("PixelSize")
  pure ⟨cp, ps, csw, vbb, vlo, vhi, temp, nv, nx, ny⟩

/-- The argument record of the galsim._galsim.Silicon engine constructor
(line 116), in source order.  The engine itself is external; the sensor owns
this handle. -/
structure SiliconEngine where
  NumVertices : Int
  NumElec : Int
  Nx : Int
  Ny : Int
  QDist : Int
  Nrecalc : Int
  DiffStep : ℝ
  PixelSize : ℝ
  vertex_data : List ℝ

/-- Lines 115-118: the loaded vertex dataset is handed to the engine intact
when its element count matches the config geometry exactly, and otherwise
construction fails with IOError. -/
def buildEngine (vertex_data : List ℝ) (NumVertices NumElec Nx Ny QDist Nrecalc : Int)
    (DiffStep PixelSize : ℝ) : Except String SiliconEngine :=
  if (vertex_data.length : Int) = 5 * Nx * Ny * (4 * NumVertices + 4) then
    Except.ok ⟨NumVertices, NumElec, Nx, Ny, QDist, Nrecalc, DiffStep, PixelSize, vertex_data⟩
  else
    Except.error ("IOError: Vertex file does not match config file")

/-- The constructed sensor: the photon-log path (always None, line 85), the
resolved rng, and the engine handle. -/
structure SiliconSensor where
  photon_file : Option String
  rng : Rng
  silicon : SiliconEngine

/-- SiliconSensor.__init__ (lines 84-118) as a function of the two file-read
outcomes.  Every Except.error corresponds to an exception escaping the
constructor, so no sensor object is observable in that case. -/
noncomputable def SiliconSensor_init (config_file : Option (List String))
    (vertex_load : Option (List ℝ)) (NumElec : Int) (rng : RngArg)
    (DiffMult : ℝ) (QDist : Int) (Nrecalc : Int) : Except String SiliconSensor :=
  match resolveRng rng with
  | Except.error e => Except.error e
  | Except.ok rng' =>
    match ReadConfigFile config_file with
    | (false, _) => Except.error ("IOError: Error reading configuration file")
    | (true, cfg) =>
      match readParams cfg with
      | Except.error e => Except.error e
      | Except.ok p =>
        match vertex_load with
        | none => Except.error ("NameError: name vertex_data is not defined")
        | some data =>
          match buildEngine data p.NumVertices NumElec p.PixelBoundaryNx p.PixelBoundaryNy
              QDist Nrecalc
              (CalcDiffStep p.CollectingPhases p.PixelSize p.ChannelStopWidth
                p.Vbb p.Vparallel_lo p.Vparallel_hi p.CCDTemperature DiffMult)
              p.PixelSize with
          | Except.error e => Except.error e
          | Except.ok eng => Except.ok ⟨none, rng', eng⟩

/-- A photon of the external PhotonArray: position, optional incidence
slopes, optional wavelength. -/
structure Photon where
  x : ℝ
  y : ℝ
  dxdz : Option ℝ
  dydz : Option ℝ
  wavelength : Option ℝ

/-- The external photon batch. -/
def PhotonBatch := List Photon

/-- The external image the charge is accumulated into. -/
structure Image where
  pixels : List (List ℝ)

/-- The delegation record of the engine call on line 132: which engine
handle, photons, rng and image the external accumulate receives. -/
structure EngineCall where
  engine : SiliconEngine
  photons : PhotonBatch
  rng : Rng
  image : Image

/-- Observable behaviour of one SiliconSensor.accumulate call: either a
photon-log write to a path followed by the engine delegation, or the direct
delegation alone. -/
inductive AccumResult where
  | logged (path : String) (call : EngineCall)
  | engineOnly (call : EngineCall)

/-- SiliconSensor.accumulate (lines 121-132): write the photon file when a
log path is set, then delegate to the engine with the sensor's rng. -/
def SiliconSensor.accumulate (s : SiliconSensor) (photons : PhotonBatch) (image : Image) : AccumResult :=
  match s.photon_file with
  | some path => AccumResult.logged path ⟨s.silicon, photons, s.rng, image⟩
  | none => AccumResult.engineOnly ⟨s.silicon, photons, s.rng, image⟩

end GalSim

namespace GalSim

/-- Claim C1 (falsified by this evaluation): ReadConfigFile is claimed to drop
every token equal to the equals sign and to truncate the token list at any
token beginning with the hash character, so that no stored value contains a
hash-initial token or anything after it.  On the line below, removing the
equals token shifts the list under the live iterator, the hash token is never
examined, and the whole inline comment is stored as the value of P. -/
theorem readConfigFile_hash_after_eq_stored :
    ReadConfigFile (some [ "P = # foo bar" ]) =
      (true, [("P", ConfigValue.seq
        [ConfigValue.str ("#"), ConfigValue.str ("foo"), ConfigValue.str ("bar")])]) ∧
    startsHash ("#") = true :=
  ⟨rfl, rfl⟩

/-- Claim C2: once the config file has been opened, per-line parsing can never
fail the parser: every operation applied to a line is total here (the only
exceptions the source can raise per line are the ValueErrors of int() and
float(), which the nested try/except converts into the string fallback), so
ReadConfigFile returns success = true for every file content; moreover a line
that contributes no entry is skipped in isolation: removing it leaves the
table built from the remaining lines unchanged. -/
theorem readConfigFile_success_total (lines ls1 ls2 : List String) (b : String)
    (hb : processLine b = none) :
    (ReadConfigFile (some lines)).1 = true ∧
    (ReadConfigFile (some (ls1 ++ b :: ls2))).2 = (ReadConfigFile (some (ls1 ++ ls2))).2 := by
  refine ⟨rfl, ?_⟩
  simp [ReadConfigFile, List.foldl_append, storeLine, hb]

/-- Witness for readConfigFile_success_total: a comment line between two
parameter lines is dropped without affecting either neighbour. -/
theorem readConfigFile_success_total_witness :
    processLine ("# comment line") = none ∧
    ((ReadConfigFile (some [ "CollectingPhases = 1", "# comment line", "Vbb = -60." ])).1 = true ∧
     (ReadConfigFile (some ([ "CollectingPhases = 1" ] ++ "# comment line" :: [ "Vbb = -60." ]))).2 =
       (ReadConfigFile (some ([ "CollectingPhases = 1" ] ++ [ "Vbb = -60." ]))).2) :=
  ⟨rfl, readConfigFile_success_total [ "CollectingPhases = 1", "# comment line", "Vbb = -60." ]
    [ "CollectingPhases = 1" ] [ "Vbb = -60." ] ("# comment line") rfl⟩

/-- Claim C9: the diffusion step does not depend on PixelSize or
ChannelStopWidth: collXmin and collXwidth are computed from them but never
used by the returned expression. -/
theorem calcDiffStep_independent_of_pixel_geometry (cp : Int)
    (p1 c1 p2 c2 vbb vlo vhi t m : ℝ) (_h1 : p1 ≠ 0) (_h2 : p2 ≠ 0) :
    CalcDiffStep cp p1 c1 vbb vlo vhi t m = CalcDiffStep cp p2 c2 vbb vlo vhi t m :=
  rfl

/-- Witness for calcDiffStep_independent_of_pixel_geometry: same pixel size 1,
channel stop widths 5 and 7. -/
theorem calcDiffStep_independent_of_pixel_geometry_witness :
    (1 : ℝ) ≠ 0 ∧ CalcDiffStep 1 1 5 (-40) (-8) 4 173 1 = CalcDiffStep 1 1 7 (-40) (-8) 4 173 1 :=
  ⟨one_ne_zero,
   calcDiffStep_independent_of_pixel_geometry 1 1 5 1 7 (-40) (-8) 4 173 1 one_ne_zero one_ne_zero⟩

/-- Claim C5: a vertex dataset whose element count is exactly
5*Nx*Ny*(4*NumVertices+4) passes validation and the engine receives the
dataset unchanged; any other count makes construction fail with IOError. -/
theorem buildEngine_size_check (data : List ℝ) (nv ne nx ny qd nr : Int) (ds ps : ℝ) :
    ((data.length : Int) = 5 * nx * ny * (4 * nv + 4) →
      buildEngine data nv ne nx ny qd nr ds ps =
        Except.ok ⟨nv, ne, nx, ny, qd, nr, ds, ps, data⟩) ∧
    ((data.length : Int) ≠ 5 * nx * ny * (4 * nv + 4) →
      buildEngine data nv ne nx ny qd nr ds ps =
        Except.error ("IOError: Vertex file does not match config file")) := by
  constructor
  · intro h
    simp [buildEngine, h]
  · intro h
    simp [buildEngine, h]

/-- Witness for buildEngine_size_check: a 1x1 grid with one vertex per edge
expects 40 elements; a 40-element dataset passes and is handed over intact,
the 39-element dataset (one short) fails. -/
theorem buildEngine_size_check_witness :
    (((List.replicate 40 (0 : ℝ)).length : Int) = 5 * 1 * 1 * (4 * 1 + 4) ∧
      buildEngine (List.replicate 40 (0 : ℝ)) 1 1000 1 1 3 10000 0 10 =
        Except.ok ⟨1, 1000, 1, 1, 3, 10000, 0, 10, List.replicate 40 (0 : ℝ)⟩) ∧
    (((List.replicate 39 (0 : ℝ)).length : Int) ≠ 5 * 1 * 1 * (4 * 1 + 4) ∧
      buildEngine (List.replicate 39 (0 : ℝ)) 1 1000 1 1 3 10000 0 10 =
        Except.error ("IOError: Vertex file does not match config file")) :=
  ⟨⟨by decide, (buildEngine_size_check (List.replicate 40 (0 : ℝ)) 1 1000 1 1 3 10000 0 10).1 (by decide)⟩,
   ⟨by decide, (buildEngine_size_check (List.replicate 39 (0 : ℝ)) 1 1000 1 1 3 10000 0 10).2 (by decide)⟩⟩

/-- Claim C6: whenever the vertex geometry file cannot be read (np.loadtxt
raises IOError, the source prints a message and leaves vertex_data unbound,
and the size check then raises NameError), the constructor raises, so no
sensor object is ever produced. -/
theorem init_fails_without_vertex_data (config_file : Option (List String))
    (NumElec : Int) (rng : RngArg) (DiffMult : ℝ) (QDist Nrecalc : Int) :
    (SiliconSensor_init config_file none NumElec rng DiffMult QDist Nrecalc).isOk = false := by
  unfold SiliconSensor_init
  split
  · rfl
  · split
    · rfl
    · split
      · rfl
      · rfl

/-- Claim C7: when the config file cannot be opened, ReadConfigFile reports
failure with an empty table and the constructor turns that into an IOError,
for every rng argument that passes the preceding type check. -/
theorem init_config_open_failure_ioerror (rng : RngArg) (hrng : rng ≠ RngArg.invalid)
    (vertex_load : Option (List ℝ)) (NumElec : Int) (DiffMult : ℝ) (QDist Nrecalc : Int) :
    ReadConfigFile none = (false, []) ∧
    SiliconSensor_init none vertex_load NumElec rng DiffMult QDist Nrecalc =
      Except.error ("IOError: Error reading configuration file") := by
  refine ⟨rfl, ?_⟩
  cases rng with
  | noRng => rfl
  | base s => rfl
  | invalid => exact absurd rfl hrng

/-- Witness for init_config_open_failure_ioerror with an absent rng. -/
theorem init_config_open_failure_ioerror_witness :
    RngArg.noRng ≠ RngArg.invalid ∧
    (ReadConfigFile none = (false, []) ∧
     SiliconSensor_init none none 1000 RngArg.noRng 1 3 10000 =
       Except.error ("IOError: Error reading configuration file")) :=
  ⟨by decide, init_config_open_failure_ioerror RngArg.noRng (by decide) none 1000 1 3 10000⟩

/-- Claim C8: on any line that reaches the storage step, a single remaining
value token is stored as one coerced scalar, two or more remaining tokens are
stored as an ordered sequence coercing each token in place, and the coercion
of each token tries int() first, float() second, and keeps the raw string
last. -/
theorem readConfigFile_coercion_precedence (line name : String) (rest : List String)
    (htok : tokenize line = name :: rest)
    (hlen : ¬ (name :: rest).length < 3)
    (hskip : (startsHash name || name == ("\n")) = false) :
    (∀ v, walk rest = [v] → processLine line = some (name, coerce v)) ∧
    (∀ v w vs, walk rest = v :: w :: vs →
       processLine line = some (name, ConfigValue.seq ((v :: w :: vs).map coerce))) ∧
    (∀ t n, pyInt t = some n → coerce t = ConfigValue.int n) ∧
    (∀ t f, pyInt t = none → pyFloat t = some f → coerce t = ConfigValue.float f) ∧
    (∀ t, pyInt t = none → pyFloat t = none → coerce t = ConfigValue.str t) := by
  have hlen2 : 2 ≤ rest.length := by
    rw [List.length_cons] at hlen
    omega
  refine ⟨?_, ?_, ?_, ?_, ?_⟩
  · intro v hv
    simp [processLine, htok, hlen, hskip, hv, hlen2]
  · intro v w vs hv
    simp [processLine, htok, hlen, hskip, hv, hlen2]
  · intro t n h
    simp [coerce, h]
  · intro t f h1 h2
    simp [coerce, h1, h2]
  · intro t h1 h2
    simp [coerce, h1, h2]

/-- Witness for readConfigFile_coercion_precedence: a sequence line whose
three tokens coerce to an int, a float and a string in order, and a scalar
line with a single float token. -/
theorem readConfigFile_coercion_precedence_witness :
    processLine ("Name = 1 2.5 abc") =
      some ("Name", ConfigValue.seq
        [ConfigValue.int 1, ConfigValue.float (PyFloat.finite 25 10), ConfigValue.str ("abc")]) ∧
    processLine ("Temp = 173.0") =
      some ("Temp", ConfigValue.float (PyFloat.finite 1730 10)) :=
  ⟨(readConfigFile_coercion_precedence ("Name = 1 2.5 abc") ("Name")
      [ "=", "1", "2.5", "abc" ] rfl (by decide) rfl).2.1 ("1") ("2.5") [ "abc" ] rfl,
   (readConfigFile_coercion_precedence ("Temp = 173.0") ("Temp")
      [ "=", "173.0" ] rfl (by decide) rfl).1 ("173.0") rfl⟩

/-- Claim C10: the public constructor takes no photon-log path and always
stores None in photon_file, so every sensor it produces never writes a photon
log and accumulate delegates directly to the engine with the sensor's rng. -/
theorem constructed_sensor_never_logs (config_file : Option (List String))
    (vertex_load : Option (List ℝ)) (NumElec : Int) (rng : RngArg)
    (DiffMult : ℝ) (QDist Nrecalc : Int) (photons : PhotonBatch) (image : Image) :
    match SiliconSensor_init config_file vertex_load NumElec rng DiffMult QDist Nrecalc with
    | Except.ok s => s.photon_file = none ∧
        s.accumulate photons image = AccumResult.engineOnly ⟨s.silicon, photons, s.rng, image⟩
    | Except.error _ => True := by
  cases hinit : SiliconSensor_init config_file vertex_load NumElec rng DiffMult QDist Nrecalc with
  | error e => trivial
  | ok s =>
    unfold SiliconSensor_init at hinit
    repeat' split at hinit
    all_goals first
      | exact Except.noConfusion hinit
      | (injection hinit with h
         subst h
         exact ⟨rfl, rfl⟩)

end GalSim

-- Concrete test vectors of the embedding against the Python behaviour.
example : GalSim.tokenize ("P = # foo bar") = [ "P", "=", "#", "foo", "bar" ] := by decide
example : GalSim.walk [ "=", "#", "foo", "bar" ] = [ "#", "foo", "bar" ] := by decide
example : GalSim.ReadConfigFile (some [ "P = # foo bar" ]) =
    (true, [("P", GalSim.ConfigValue.seq [GalSim.ConfigValue.str ("#"), GalSim.ConfigValue.str ("foo"), GalSim.ConfigValue.str ("bar")])]) := rfl
example : GalSim.coerce ("2.5") = GalSim.ConfigValue.float (GalSim.PyFloat.finite 25 10) := rfl
example : GalSim.coerce ("1") = GalSim.ConfigValue.int 1 := rfl
example : GalSim.coerce ("-1e2") = GalSim.ConfigValue.float (GalSim.PyFloat.finite (-100) 1) := rfl
example : GalSim.coerce ("1.5e-3") = GalSim.ConfigValue.float (GalSim.PyFloat.finite 15 10000) := rfl
example : GalSim.coerce ("inf") = GalSim.ConfigValue.float (GalSim.PyFloat.inf false) := rfl
example : GalSim.coerce ("+5") = GalSim.ConfigValue.int 5 := rfl
example : GalSim.coerce (".5") = GalSim.ConfigValue.float (GalSim.PyFloat.finite 5 10) := rfl
example : GalSim.coerce ("5.") = GalSim.ConfigValue.float (GalSim.PyFloat.finite 5 1) := rfl
example : GalSim.coerce ("abc") = GalSim.ConfigValue.str ("abc") := rfl
